import Mathlib

/-!
Shallow embedding of `rotate.py` from picture-rotation-fixer.

The embedded core is the cascading orientation resolver `auto_rotate`
(`src/rotate.py` lines 73-123), its YOLO detection helper
`detect_objects_yolo` (lines 40-70), and the per-item wrapper
`process_single_image` (lines 126-128).

External collaborators (OpenCV face cascade, the YOLO model, the decoder)
are injected as functions; a call that may raise a Python exception is
modelled as `Except Err`.  An image raster is a matrix of pixels, each
pixel a triple of channel values in BGR order (OpenCV convention).
`auto_rotate`'s observable behaviour is recorded in a `RunOut` trace:
which rasters each signal was asked about, the decision the function
logs, and the list of rasters it saved back to the file path.
-/

namespace RotateFixer

/-- An error carried by a raised Python exception. -/
abbrev Err := String

/-- One pixel: three channel values. A decoded raster holds them in BGR
order (OpenCV); `cvtBGR2RGB` reverses the order. -/
abbrev Pix := Nat × Nat × Nat

/-- An in-memory raster: rows of pixels. -/
abbrev Img := List (List Pix)

/-- The three `cv2` rotation codes used in `auto_rotate`. -/
inductive RotateCode
  | rot90cw
  | rot180
  | rot90ccw
deriving DecidableEq, Repr

/-- `cv2.rotate image code`. -/
def cv2Rotate : RotateCode → Img → Img
  | .rot90cw, m => m.transpose.map List.reverse
  | .rot180, m => (m.map List.reverse).reverse
  | .rot90ccw, m => (m.map List.reverse).transpose

/-- `rotated = cv2.rotate(img, rotate_code) if rotate_code else img`. -/
def applyRotate (code : Option RotateCode) (img : Img) : Img :=
  match code with
  | some c => cv2Rotate c img
  | none => img

/-- `cv2.cvtColor(rotated, cv2.COLOR_BGR2RGB)`: reverse each pixel's
channel order. -/
def cvtBGR2RGB (m : Img) : Img :=
  m.map (List.map fun p => (p.2.2, p.2.1, p.1))

/-- One ultralytics inference result: the confidence list of the
axis-aligned boxes (`result.boxes.conf`, when `result.boxes` is not
`None`) and of the oriented boxes (`result.obb.conf`, when `result.obb`
is not `None`). -/
structure YoloResult where
  boxesConf : Option (List Rat)
  obbConf : Option (List Rat)
deriving DecidableEq

/-- A loaded YOLO model: inference on an image yields a list of results,
or raises. -/
abbrev Model := Img → Except Err (List YoloResult)

/-- Python's `max` on a non-empty confidence list (the `len > 0` guard in
the source makes the `[]` value irrelevant). -/
def maxConf : List Rat → Rat
  | [] => 0
  | c :: cs => cs.foldl max c

/-- `len(confidences) > 0 and max(confidences) >= confidence_threshold`. -/
def confFires (cs : List Rat) (t : Rat) : Bool :=
  decide (0 < cs.length) && decide (t ≤ maxConf cs)

/-- The confidence list the per-result branch of `detect_objects_yolo`
examines: axis-aligned boxes when present (`if ... result.boxes is not
None`), else oriented boxes (`elif ... result.obb is not None`), else
nothing. -/
def examinedConfs (r : YoloResult) : List Rat :=
  match r.boxesConf with
  | some cs => cs
  | none =>
    match r.obbConf with
    | some cs => cs
    | none => []

/-- The body of the `for result in results` loop for one result. -/
def resultFires (r : YoloResult) (t : Rat) : Bool :=
  confFires (examinedConfs r) t

/-- `detect_objects_yolo(image, model, confidence_threshold)`
(`src/rotate.py` lines 40-70): run inference, return `True` on the first
result whose examined confidence set passes the threshold; the whole body
is wrapped in `try/except` returning `False`. -/
def detect_objects_yolo (image : Img) (model : Model) (confidence_threshold : Rat) : Bool :=
  match model image with
  | .error _ => false
  | .ok results => results.any fun r => resultFires r confidence_threshold

/-- The injected collaborators of `auto_rotate`: the face detector
(`detect_faces`, may raise) and the model constructor
(`YOLO(get_model_path())`, may raise). -/
structure Collab where
  detect_faces : Img → Except Err Bool
  loadModel : Except Err Model

/-- The fixed candidate list iterated by both passes of `auto_rotate`:
`[(0, None), (90, ROTATE_90_CLOCKWISE), (180, ROTATE_180),
(270, ROTATE_90_COUNTERCLOCKWISE)]`. -/
def rotationCandidates : List (Nat × Option RotateCode) :=
  [(0, none), (90, some .rot90cw), (180, some .rot180), (270, some .rot90ccw)]

/-- The confidence threshold `0.5` passed at the `detect_objects_yolo`
call site in `auto_rotate`. -/
def defaultConfidence : Rat := 1 / 2

/-- Phase 1 of `auto_rotate`: the face loop. Returns the rasters the face
detector was queried on and the first `(angle, rotated)` match, or
propagates the detector's exception (the loop has no `try/except`). -/
def facePass (fd : Img → Except Err Bool) (img : Img) :
    List (Nat × Option RotateCode) → Except Err (List Img × Option (Nat × Img))
  | [] => .ok ([], none)
  | (angle, code) :: rest =>
    let rotated := applyRotate code img
    match fd rotated with
    | .error e => .error e
    | .ok true => .ok ([rotated], some (angle, rotated))
    | .ok false =>
      match facePass fd img rest with
      | .error e => .error e
      | .ok (calls, res) => .ok (rotated :: calls, res)

/-- Phase 2 of `auto_rotate`: the object loop. `detect_objects_yolo`
swallows inference exceptions itself, so the loop is total. -/
def objectPass (model : Model) (img : Img) :
    List (Nat × Option RotateCode) → List Img × Option (Nat × Img)
  | [] => ([], none)
  | (angle, code) :: rest =>
    let rotated := applyRotate code img
    if detect_objects_yolo rotated model defaultConfidence then
      ([rotated], some (angle, rotated))
    else
      let p := objectPass model img rest
      (rotated :: p.1, p.2)

/-- The observable trace of one `auto_rotate` run: the raster arguments
of every face-signal query and every object-signal query, the decision
the function logs (`angle`, chosen raster), and the rasters it saved back
to the file path (after BGR→RGB conversion). -/
structure RunOut where
  faceCalls : List Img
  objCalls : List Img
  decision : Option (Nat × Img)
  writes : List Img
deriving DecidableEq

/-- `auto_rotate(image_path)` (`src/rotate.py` lines 73-123), with the
decode result passed in (`cv2.imread` returns `None` on failure rather
than raising). Phase 1 iterates the candidates against `detect_faces`
and saves/returns on the first hit; only if it exhausts them does the
`try` block load the YOLO model and run phase 2; a model-load exception
is caught and the function falls through to the no-decision return. -/
def auto_rotate (c : Collab) (decoded : Option Img) : Except Err RunOut :=
  match decoded with
  | none => .ok ⟨[], [], none, []⟩
  | some img =>
    match facePass c.detect_faces img rotationCandidates with
    | .error e => .error e
    | .ok (fc, some (angle, rotated)) =>
      .ok ⟨fc, [], some (angle, rotated), [cvtBGR2RGB rotated]⟩
    | .ok (fc, none) =>
      match c.loadModel with
      | .error _ => .ok ⟨fc, [], none, []⟩
      | .ok model =>
        match objectPass model img rotationCandidates with
        | (oc, some (angle, rotated)) =>
          .ok ⟨fc, oc, some (angle, rotated), [cvtBGR2RGB rotated]⟩
        | (oc, none) => .ok ⟨fc, oc, none, []⟩

/-- `process_single_image` (`src/rotate.py` lines 126-128): it only calls
`auto_rotate`, with no exception handling of its own. -/
def process_single_image (c : Collab) (decoded : Option Img) : Except Err RunOut :=
  auto_rotate c decoded

/-- The bytes on disk after replaying a run's writes over the original
file content, given the encoder. -/
def fileBytesAfter (encode : Img → List Nat) (orig : List Nat) : List Img → List Nat
  | [] => orig
  | w :: ws => fileBytesAfter encode (encode w) ws

/-- The single rotation named by an angle, applied once to a raster
(identity for 0°). -/
def rotateByAngle (a : Nat) (img : Img) : Img :=
  if a = 0 then img
  else if a = 90 then cv2Rotate .rot90cw img
  else if a = 180 then cv2Rotate .rot180 img
  else if a = 270 then cv2Rotate .rot90ccw img
  else img

/-- The rotated raster of the k-th candidate: the candidate's transform
applied once to the original raster. -/
def rotAt (k : Fin 4) (img : Img) : Img :=
  match k with
  | ⟨0, _⟩ => img
  | ⟨1, _⟩ => cv2Rotate .rot90cw img
  | ⟨2, _⟩ => cv2Rotate .rot180 img
  | ⟨3, _⟩ => cv2Rotate .rot90ccw img
  | ⟨n + 4, h⟩ => absurd h (by omega)

/-- The angle of the k-th candidate. -/
def angleAt (k : Fin 4) : Nat :=
  match k with
  | ⟨0, _⟩ => 0
  | ⟨1, _⟩ => 90
  | ⟨2, _⟩ => 180
  | ⟨3, _⟩ => 270
  | ⟨n + 4, h⟩ => absurd h (by omega)

/-- A concrete 1×2 test raster whose four candidate rotations are
pairwise distinct. -/
def imgEx2 : Img := [[(1, 2, 3), (4, 5, 6)]]

/-- Concrete collaborators: the face detector always fires; model load
raises. -/
def cFaceAlways : Collab where
  detect_faces := fun _ => .ok true
  loadModel := .error "load failed"

/-- Concrete collaborators: the face detector never fires; the model
returns an empty result list. -/
def cNeverDetect : Collab where
  detect_faces := fun _ => .ok false
  loadModel := .ok fun _ => .ok []

/-- Concrete collaborators: the face detector raises on every call. -/
def cFaceRaises : Collab where
  detect_faces := fun _ => .error "face detector crashed"
  loadModel := .error "load failed"

/-- Concrete collaborators: the face detector fires exactly on the
270°-rotated raster of `imgEx2`, while the object model detects
everything at full confidence. -/
def cFaceAt270 : Collab where
  detect_faces := fun i => .ok (decide (i = cv2Rotate .rot90ccw imgEx2))
  loadModel := .ok fun _ => .ok [⟨some [1], none⟩]

/-- A model whose inference raises exactly on `imgEx2` and detects with
full confidence on every other raster. -/
def modelFlaky : Model := fun i =>
  if i = imgEx2 then .error "inference crashed"
  else .ok [⟨some [1], none⟩]

/-- Concrete collaborators: no faces anywhere, with the flaky model. -/
def cObjFlaky : Collab where
  detect_faces := fun _ => .ok false
  loadModel := .ok modelFlaky

/-- Concrete collaborators: no faces anywhere, and the model load
raises. -/
def cNoFaceNoModel : Collab where
  detect_faces := fun _ => .ok false
  loadModel := .error "load failed"

/-! ### Helper lemmas -/

theorem facePass_all_false (fd : Img → Except Err Bool) (img : Img)
    (h0 : fd img = .ok false)
    (h1 : fd (cv2Rotate .rot90cw img) = .ok false)
    (h2 : fd (cv2Rotate .rot180 img) = .ok false)
    (h3 : fd (cv2Rotate .rot90ccw img) = .ok false) :
    facePass fd img rotationCandidates =
      .ok ([img, cv2Rotate .rot90cw img, cv2Rotate .rot180 img,
            cv2Rotate .rot90ccw img], none) := by
  simp [facePass, rotationCandidates, applyRotate, h0, h1, h2, h3]

theorem objectPass_all_false (model : Model) (img : Img)
    (h0 : detect_objects_yolo img model defaultConfidence = false)
    (h1 : detect_objects_yolo (cv2Rotate .rot90cw img) model defaultConfidence = false)
    (h2 : detect_objects_yolo (cv2Rotate .rot180 img) model defaultConfidence = false)
    (h3 : detect_objects_yolo (cv2Rotate .rot90ccw img) model defaultConfidence = false) :
    objectPass model img rotationCandidates =
      ([img, cv2Rotate .rot90cw img, cv2Rotate .rot180 img,
        cv2Rotate .rot90ccw img], none) := by
  simp [objectPass, rotationCandidates, applyRotate, h0, h1, h2, h3]

theorem le_foldl_max_iff (t c : Rat) (cs : List Rat) :
    t ≤ cs.foldl max c ↔ t ≤ c ∨ ∃ x ∈ cs, t ≤ x := by
  induction cs generalizing c with
  | nil => simp
  | cons y ys ih =>
    simp only [List.foldl_cons, ih, le_max_iff, List.mem_cons]
    constructor
    · rintro ((h | h) | ⟨x, hx, hle⟩)
      · exact Or.inl h
      · exact Or.inr ⟨y, Or.inl rfl, h⟩
      · exact Or.inr ⟨x, Or.inr hx, hle⟩
    · rintro (h | ⟨x, hx | hx, hle⟩)
      · exact Or.inl (Or.inl h)
      · exact Or.inl (Or.inr (hx ▸ hle))
      · exact Or.inr ⟨x, hx, hle⟩

theorem confFires_iff (cs : List Rat) (t : Rat) :
    confFires cs t = true ↔ ∃ x ∈ cs, t ≤ x := by
  cases cs with
  | nil => simp [confFires]
  | cons c cs =>
    simp only [confFires, maxConf, Bool.and_eq_true, decide_eq_true_eq,
      List.length_cons, Nat.zero_lt_succ, true_and, le_foldl_max_iff,
      List.mem_cons]
    constructor
    · rintro (h | ⟨x, hx, hle⟩)
      · exact ⟨c, Or.inl rfl, h⟩
      · exact ⟨x, Or.inr hx, hle⟩
    · rintro ⟨x, hx | hx, hle⟩
      · exact Or.inl (hx ▸ hle)
      · exact Or.inr ⟨x, hx, hle⟩

theorem facePass_total (fd : Img → Except Err Bool) (img : Img)
    (l : List (Nat × Option RotateCode)) (h : ∀ i : Img, ∃ b, fd i = .ok b) :
    ∃ p, facePass fd img l = .ok p := by
  induction l with
  | nil => exact ⟨([], none), rfl⟩
  | cons hd rest ih =>
    obtain ⟨angle, code⟩ := hd
    obtain ⟨b, hb⟩ := h (applyRotate code img)
    obtain ⟨p, hp⟩ := ih
    cases b with
    | true =>
      exact ⟨([applyRotate code img], some (angle, applyRotate code img)),
        by simp [facePass, hb]⟩
    | false =>
      exact ⟨(applyRotate code img :: p.1, p.2), by simp [facePass, hb, hp]⟩

theorem facePass_calls_le (fd : Img → Except Err Bool) (img : Img)
    (l : List (Nat × Option RotateCode)) (p : List Img × Option (Nat × Img))
    (h : facePass fd img l = .ok p) : p.1.length ≤ l.length := by
  induction l generalizing p with
  | nil =>
    simp only [facePass, Except.ok.injEq] at h
    subst h; simp
  | cons hd rest ih =>
    obtain ⟨angle, code⟩ := hd
    simp only [facePass] at h
    cases hfd : fd (applyRotate code img) with
    | error e => simp [hfd] at h
    | ok b =>
      cases b with
      | true =>
        simp only [hfd, Except.ok.injEq] at h
        subst h; simp
      | false =>
        simp only [hfd] at h
        cases hrec : facePass fd img rest with
        | error e => simp [hrec] at h
        | ok q =>
          simp only [hrec, Except.ok.injEq] at h
          subst h
          simpa using Nat.succ_le_succ (ih q hrec)

theorem facePass_decision_mem (fd : Img → Except Err Bool) (img : Img)
    (l : List (Nat × Option RotateCode)) (p : List Img × Option (Nat × Img))
    (a : Nat) (r : Img) (h : facePass fd img l = .ok p) (hd : p.2 = some (a, r)) :
    ∃ code, (a, code) ∈ l ∧ r = applyRotate code img := by
  induction l generalizing p with
  | nil =>
    simp only [facePass, Except.ok.injEq] at h
    subst h; simp at hd
  | cons hd0 rest ih =>
    obtain ⟨angle, code⟩ := hd0
    simp only [facePass] at h
    cases hfd : fd (applyRotate code img) with
    | error e => simp [hfd] at h
    | ok b =>
      cases b with
      | true =>
        simp only [hfd, Except.ok.injEq] at h
        subst h
        simp only [Option.some.injEq, Prod.mk.injEq] at hd
        exact ⟨code, by simp [hd.1], hd.2.symm⟩
      | false =>
        simp only [hfd] at h
        cases hrec : facePass fd img rest with
        | error e => simp [hrec] at h
        | ok q =>
          simp only [hrec, Except.ok.injEq] at h
          subst h
          obtain ⟨code2, hmem, hr⟩ := ih q hrec hd
          exact ⟨code2, List.mem_cons_of_mem _ hmem, hr⟩

theorem objectPass_calls_le (model : Model) (img : Img)
    (l : List (Nat × Option RotateCode)) :
    (objectPass model img l).1.length ≤ l.length := by
  induction l with
  | nil => simp [objectPass]
  | cons hd rest ih =>
    obtain ⟨angle, code⟩ := hd
    simp only [objectPass]
    by_cases hdet : detect_objects_yolo (applyRotate code img) model defaultConfidence
    · simp [hdet]
    · simpa [hdet] using Nat.succ_le_succ ih

theorem objectPass_decision_mem (model : Model) (img : Img)
    (l : List (Nat × Option RotateCode)) (a : Nat) (r : Img)
    (hd : (objectPass model img l).2 = some (a, r)) :
    ∃ code, (a, code) ∈ l ∧ r = applyRotate code img := by
  induction l with
  | nil => simp [objectPass] at hd
  | cons hd0 rest ih =>
    obtain ⟨angle, code⟩ := hd0
    simp only [objectPass] at hd
    by_cases hdet : detect_objects_yolo (applyRotate code img) model defaultConfidence
    · simp only [hdet, if_true, Option.some.injEq, Prod.mk.injEq] at hd
      exact ⟨code, by simp [hd.1], hd.2.symm⟩
    · simp only [hdet, if_false, Bool.false_eq_true] at hd
      obtain ⟨code2, hmem, hr⟩ := ih hd
      exact ⟨code2, List.mem_cons_of_mem _ hmem, hr⟩

theorem auto_rotate_writes_shape (c : Collab) (decoded : Option Img) (out : RunOut)
    (h : auto_rotate c decoded = .ok out) :
    out.writes = match out.decision with
      | some p => [cvtBGR2RGB p.2]
      | none => [] := by
  cases decoded with
  | none =>
    simp only [auto_rotate, Except.ok.injEq] at h
    subst h; rfl
  | some img =>
    simp only [auto_rotate] at h
    cases hfp : facePass c.detect_faces img rotationCandidates with
    | error e => simp [hfp] at h
    | ok p =>
      obtain ⟨fc, res⟩ := p
      cases res with
      | some ar =>
        obtain ⟨angle, rotated⟩ := ar
        simp only [hfp, Except.ok.injEq] at h
        subst h; rfl
      | none =>
        simp only [hfp] at h
        cases hlm : c.loadModel with
        | error e =>
          simp only [hlm, Except.ok.injEq] at h
          subst h; rfl
        | ok model =>
          simp only [hlm] at h
          cases hop : objectPass model img rotationCandidates with
          | mk oc ores =>
            cases ores with
            | some ar =>
              obtain ⟨angle, rotated⟩ := ar
              simp only [hop, Except.ok.injEq] at h
              subst h; rfl
            | none =>
              simp only [hop, Except.ok.injEq] at h
              subst h; rfl

/-! ### Claims -/

/-- Claim C1: the resolver evaluates the four rotation candidates in the
fixed order 0°, 90°, 180°, 270° and selects the first candidate for which
the face signal fires, never evaluating later candidates once a match
occurs: if the face detector is negative on every candidate before `k`
and positive at `k`, then the decision is candidate `k`, exactly `k + 1`
face queries are made, no object query is made, and the write is the
`k`-th rotation of the original raster.  In particular (witness), when
the face signal fires at 0° (even though it also fires at 180°, as with
`cFaceAlways`), the 0° candidate is selected after a single query. -/
theorem claim1_first_match_wins (c : Collab) (img : Img) (k : Fin 4)
    (hb : ∀ j : Fin 4, j < k → c.detect_faces (rotAt j img) = .ok false)
    (hk : c.detect_faces (rotAt k img) = .ok true) :
    ∃ out : RunOut, auto_rotate c (some img) = .ok out ∧
      out.decision = some (angleAt k, rotAt k img) ∧
      out.faceCalls.length = k.1 + 1 ∧ out.objCalls = [] ∧
      out.writes = [cvtBGR2RGB (rotAt k img)] := by
  obtain ⟨n, hn⟩ := k
  interval_cases n
  · simp only [rotAt] at hk
    exact ⟨⟨[img], [], some (0, img), [cvtBGR2RGB img]⟩,
      by simp [auto_rotate, facePass, rotationCandidates, applyRotate, hk],
      by simp [angleAt, rotAt], rfl, rfl, by simp [rotAt]⟩
  · have h0 := hb ⟨0, by omega⟩ (Fin.mk_lt_mk.mpr (by omega))
    simp only [rotAt] at h0 hk
    exact ⟨⟨[img, cv2Rotate .rot90cw img], [],
        some (90, cv2Rotate .rot90cw img), [cvtBGR2RGB (cv2Rotate .rot90cw img)]⟩,
      by simp [auto_rotate, facePass, rotationCandidates, applyRotate, h0, hk],
      by simp [angleAt, rotAt], rfl, rfl, by simp [rotAt]⟩
  · have h0 := hb ⟨0, by omega⟩ (Fin.mk_lt_mk.mpr (by omega))
    have h1 := hb ⟨1, by omega⟩ (Fin.mk_lt_mk.mpr (by omega))
    simp only [rotAt] at h0 h1 hk
    exact ⟨⟨[img, cv2Rotate .rot90cw img, cv2Rotate .rot180 img], [],
        some (180, cv2Rotate .rot180 img), [cvtBGR2RGB (cv2Rotate .rot180 img)]⟩,
      by simp [auto_rotate, facePass, rotationCandidates, applyRotate, h0, h1, hk],
      by simp [angleAt, rotAt], rfl, rfl, by simp [rotAt]⟩
  · have h0 := hb ⟨0, by omega⟩ (Fin.mk_lt_mk.mpr (by omega))
    have h1 := hb ⟨1, by omega⟩ (Fin.mk_lt_mk.mpr (by omega))
    have h2 := hb ⟨2, by omega⟩ (Fin.mk_lt_mk.mpr (by omega))
    simp only [rotAt] at h0 h1 h2 hk
    exact ⟨⟨[img, cv2Rotate .rot90cw img, cv2Rotate .rot180 img,
          cv2Rotate .rot90ccw img], [],
        some (270, cv2Rotate .rot90ccw img), [cvtBGR2RGB (cv2Rotate .rot90ccw img)]⟩,
      by simp [auto_rotate, facePass, rotationCandidates, applyRotate, h0, h1, h2, hk],
      by simp [angleAt, rotAt], rfl, rfl, by simp [rotAt]⟩

/-- Witness for C1 at a concrete input: `cFaceAlways`'s face detector
fires at every rotation of `imgEx2` (so at 0° and at 180°), and the
resolver picks 0° after a single face query. -/
theorem claim1_first_match_wins_witness :
    ∃ out : RunOut, auto_rotate cFaceAlways (some imgEx2) = .ok out ∧
      out.decision = some (angleAt ⟨0, by omega⟩, rotAt ⟨0, by omega⟩ imgEx2) ∧
      out.faceCalls.length = (0 : Nat) + 1 ∧ out.objCalls = [] ∧
      out.writes = [cvtBGR2RGB (rotAt ⟨0, by omega⟩ imgEx2)] :=
  claim1_first_match_wins cFaceAlways imgEx2 ⟨0, by omega⟩
    (fun j hj => absurd (Fin.lt_def.mp hj) (Nat.not_lt_zero _)) rfl

/-- Claim C2: the object pass is reached only after the face pass has
failed at all four candidates, so face evidence pre-empts object
evidence: when the face signal fires only at 270°, the resolver selects
270° with no object query at all (`objCalls = []`), whatever the model
collaborator in `c` would have answered (for example one that would
fire at 0°). -/
theorem claim2_face_preempts_object (c : Collab) (img : Img)
    (h0 : c.detect_faces img = .ok false)
    (h1 : c.detect_faces (cv2Rotate .rot90cw img) = .ok false)
    (h2 : c.detect_faces (cv2Rotate .rot180 img) = .ok false)
    (h3 : c.detect_faces (cv2Rotate .rot90ccw img) = .ok true) :
    auto_rotate c (some img) =
      .ok ⟨[img, cv2Rotate .rot90cw img, cv2Rotate .rot180 img,
            cv2Rotate .rot90ccw img],
        [], some (270, cv2Rotate .rot90ccw img),
        [cvtBGR2RGB (cv2Rotate .rot90ccw img)]⟩ := by
  simp [auto_rotate, facePass, rotationCandidates, applyRotate, h0, h1, h2, h3]

/-- Witness for C2 at a concrete input: `cFaceAt270`'s face detector
fires only at the 270° rotation of `imgEx2`, while its object model
would fire at every rotation (confidence 1 ≥ 0.5, in particular at 0°);
the resolver still selects 270° and never queries the model. -/
theorem claim2_face_preempts_object_witness :
    auto_rotate cFaceAt270 (some imgEx2) =
      .ok ⟨[imgEx2, cv2Rotate .rot90cw imgEx2, cv2Rotate .rot180 imgEx2,
            cv2Rotate .rot90ccw imgEx2],
        [], some (270, cv2Rotate .rot90ccw imgEx2),
        [cvtBGR2RGB (cv2Rotate .rot90ccw imgEx2)]⟩ :=
  claim2_face_preempts_object cFaceAt270 imgEx2 rfl rfl rfl rfl

/-- Claim C3: if neither signal fires at any of the four candidates, the
run performs no write, and replaying its (empty) write list over the
original file bytes leaves them unchanged. -/
theorem claim3_no_match_no_write (c : Collab) (img : Img)
    (encode : Img → List Nat) (orig : List Nat)
    (hface : ∀ code ∈ rotationCandidates.map Prod.snd,
        c.detect_faces (applyRotate code img) = .ok false)
    (hobj : ∀ model, c.loadModel = .ok model →
        ∀ code ∈ rotationCandidates.map Prod.snd,
          detect_objects_yolo (applyRotate code img) model defaultConfidence = false) :
    ∃ out : RunOut, auto_rotate c (some img) = .ok out ∧ out.writes = [] ∧
      fileBytesAfter encode orig out.writes = orig := by
  have hf0 := hface none (by simp [rotationCandidates])
  have hf1 := hface (some .rot90cw) (by simp [rotationCandidates])
  have hf2 := hface (some .rot180) (by simp [rotationCandidates])
  have hf3 := hface (some .rot90ccw) (by simp [rotationCandidates])
  simp only [applyRotate] at hf0 hf1 hf2 hf3
  have hfp := facePass_all_false c.detect_faces img hf0 hf1 hf2 hf3
  cases hlm : c.loadModel with
  | error e =>
    exact ⟨⟨[img, cv2Rotate .rot90cw img, cv2Rotate .rot180 img,
          cv2Rotate .rot90ccw img], [], none, []⟩,
      by simp [auto_rotate, hfp, hlm], rfl, rfl⟩
  | ok model =>
    have ho0 := hobj model hlm none (by simp [rotationCandidates])
    have ho1 := hobj model hlm (some .rot90cw) (by simp [rotationCandidates])
    have ho2 := hobj model hlm (some .rot180) (by simp [rotationCandidates])
    have ho3 := hobj model hlm (some .rot90ccw) (by simp [rotationCandidates])
    simp only [applyRotate] at ho0 ho1 ho2 ho3
    have hop := objectPass_all_false model img ho0 ho1 ho2 ho3
    exact ⟨⟨[img, cv2Rotate .rot90cw img, cv2Rotate .rot180 img,
          cv2Rotate .rot90ccw img],
        [img, cv2Rotate .rot90cw img, cv2Rotate .rot180 img,
          cv2Rotate .rot90ccw img], none, []⟩,
      by simp [auto_rotate, hfp, hlm, hop], rfl, rfl⟩

/-- Witness for C3 at a concrete input: with `cNeverDetect` (face
detector never fires, model returns no detections) on `imgEx2`, the run
writes nothing and the original bytes `[7, 7]` survive unchanged. -/
theorem claim3_no_match_no_write_witness :
    ∃ out : RunOut, auto_rotate cNeverDetect (some imgEx2) = .ok out ∧
      out.writes = [] ∧
      fileBytesAfter (fun _ => []) [7, 7] out.writes = [7, 7] :=
  claim3_no_match_no_write cNeverDetect imgEx2 (fun _ => []) [7, 7]
    (fun _ _ => rfl)
    (fun model hm => by
      injection hm with hm
      subst hm
      intro code hc
      rfl)

/-- Claim C4 counterexample: the claim says the resolver is pure and
persistence is carried out by its caller, but `auto_rotate` itself saves
the rotated raster back to the file path (`Image.fromarray(...).save`
inside `auto_rotate`): at this input its own write trace is non-empty,
and the function returns no `(angle, rotated)` value to its caller. -/
theorem claim4_purity_counterexample :
    auto_rotate cFaceAlways (some imgEx2) =
      .ok ⟨[imgEx2], [], some (0, imgEx2), [cvtBGR2RGB imgEx2]⟩ ∧
    [cvtBGR2RGB imgEx2] ≠ ([] : List Img) :=
  ⟨rfl, by simp⟩

/-- Claim C4 as amended: `auto_rotate` is not pure with respect to its
input and does not leave persistence to its caller — it performs the
write itself: on every successful run the write trace is exactly one
BGR→RGB-converted raster when a decision is made, and empty when not. -/
theorem claim4_resolver_persists_itself (c : Collab) (decoded : Option Img)
    (out : RunOut) (h : auto_rotate c decoded = .ok out) :
    out.writes = match out.decision with
      | some p => [cvtBGR2RGB p.2]
      | none => [] :=
  auto_rotate_writes_shape c decoded out h

/-- Witness for the amended C4 at a concrete input. -/
theorem claim4_resolver_persists_itself_witness :
    (⟨[imgEx2], [], some (0, imgEx2), [cvtBGR2RGB imgEx2]⟩ : RunOut).writes =
      match (⟨[imgEx2], [], some (0, imgEx2), [cvtBGR2RGB imgEx2]⟩ : RunOut).decision with
      | some p => [cvtBGR2RGB p.2]
      | none => [] :=
  claim4_resolver_persists_itself cFaceAlways (some imgEx2) _ rfl

/-- Claim C5 counterexample: the claim says no collaborator behaviour can
make the per-item function propagate an exception, but the face loop of
`auto_rotate` has no `try/except`, so a raising face detector propagates
out of `process_single_image`. -/
theorem claim5_isolation_counterexample :
    process_single_image cFaceRaises (some imgEx2) =
      .error "face detector crashed" :=
  rfl

/-- Claim C5 as amended: per-item containment holds only for the object
pass — whenever the face detector itself does not raise,
`process_single_image` returns normally, for every behaviour of the
model constructor and of model inference (their exceptions are caught by
the `try/except` blocks in `auto_rotate` and `detect_objects_yolo`). -/
theorem claim5_object_pass_contained (c : Collab) (decoded : Option Img)
    (hface : ∀ i : Img, ∃ b, c.detect_faces i = .ok b) :
    ∃ out, process_single_image c decoded = .ok out := by
  cases decoded with
  | none => exact ⟨⟨[], [], none, []⟩, rfl⟩
  | some img =>
    obtain ⟨p, hp⟩ := facePass_total c.detect_faces img rotationCandidates hface
    obtain ⟨fc, res⟩ := p
    cases res with
    | some ar =>
      obtain ⟨a, r⟩ := ar
      exact ⟨⟨fc, [], some (a, r), [cvtBGR2RGB r]⟩,
        by simp [process_single_image, auto_rotate, hp]⟩
    | none =>
      cases hlm : c.loadModel with
      | error e =>
        exact ⟨⟨fc, [], none, []⟩,
          by simp [process_single_image, auto_rotate, hp, hlm]⟩
      | ok model =>
        rcases hop : objectPass model img rotationCandidates with ⟨oc, _ | ⟨a, r⟩⟩
        · exact ⟨⟨fc, oc, none, []⟩,
            by simp [process_single_image, auto_rotate, hp, hlm, hop]⟩
        · exact ⟨⟨fc, oc, some (a, r), [cvtBGR2RGB r]⟩,
            by simp [process_single_image, auto_rotate, hp, hlm, hop]⟩

/-- Witness for the amended C5 at a concrete input. -/
theorem claim5_object_pass_contained_witness :
    ∃ out, process_single_image cNeverDetect (some imgEx2) = .ok out :=
  claim5_object_pass_contained cNeverDetect (some imgEx2)
    (fun _ => ⟨false, rfl⟩)

/-- Claim C6: on every successful run the file is written at most once,
while at most four face-signal and four object-signal evaluations (eight
in total) occur. -/
theorem claim6_single_write (c : Collab) (decoded : Option Img)
    (out : RunOut) (h : auto_rotate c decoded = .ok out) :
    out.writes.length ≤ 1 ∧
    out.faceCalls.length ≤ 4 ∧ out.objCalls.length ≤ 4 ∧
    out.faceCalls.length + out.objCalls.length ≤ 8 := by
  cases decoded with
  | none =>
    simp only [auto_rotate, Except.ok.injEq] at h
    subst h; simp
  | some img =>
    simp only [auto_rotate] at h
    cases hfp : facePass c.detect_faces img rotationCandidates with
    | error e => simp [hfp] at h
    | ok p =>
      obtain ⟨fc, res⟩ := p
      have hfc : fc.length ≤ 4 := by
        simpa [rotationCandidates] using
          facePass_calls_le c.detect_faces img rotationCandidates (fc, res) hfp
      cases res with
      | some ar =>
        obtain ⟨a, r⟩ := ar
        simp only [hfp, Except.ok.injEq] at h
        subst h
        refine ⟨by simp, by simpa using hfc, by simp, ?_⟩
        simpa using Nat.le_trans hfc (by omega)
      | none =>
        simp only [hfp] at h
        cases hlm : c.loadModel with
        | error e =>
          simp only [hlm, Except.ok.injEq] at h
          subst h
          refine ⟨by simp, by simpa using hfc, by simp, ?_⟩
          simpa using Nat.le_trans hfc (by omega)
        | ok model =>
          simp only [hlm] at h
          have hoc : (objectPass model img rotationCandidates).1.length ≤ 4 := by
            simpa [rotationCandidates] using
              objectPass_calls_le model img rotationCandidates
          rcases hop : objectPass model img rotationCandidates with ⟨oc, ores⟩
          rw [hop] at h hoc
          have hoc2 : oc.length ≤ 4 := by simpa using hoc
          cases ores with
          | none =>
            simp only [Except.ok.injEq] at h
            subst h
            refine ⟨by simp, by simpa using hfc, by simpa using hoc2, ?_⟩
            simp only [RunOut.faceCalls, RunOut.objCalls]
            omega
          | some ar =>
            obtain ⟨a, r⟩ := ar
            simp only [Except.ok.injEq] at h
            subst h
            refine ⟨by simp, by simpa using hfc, by simpa using hoc2, ?_⟩
            simp only [RunOut.faceCalls, RunOut.objCalls]
            omega

/-- Witness for C6 at a concrete input. -/
theorem claim6_single_write_witness :
    (⟨[imgEx2], [], some (0, imgEx2), [cvtBGR2RGB imgEx2]⟩ : RunOut).writes.length ≤ 1 ∧
    (⟨[imgEx2], [], some (0, imgEx2), [cvtBGR2RGB imgEx2]⟩ : RunOut).faceCalls.length ≤ 4 ∧
    (⟨[imgEx2], [], some (0, imgEx2), [cvtBGR2RGB imgEx2]⟩ : RunOut).objCalls.length ≤ 4 ∧
    (⟨[imgEx2], [], some (0, imgEx2), [cvtBGR2RGB imgEx2]⟩ : RunOut).faceCalls.length +
      (⟨[imgEx2], [], some (0, imgEx2), [cvtBGR2RGB imgEx2]⟩ : RunOut).objCalls.length ≤ 8 :=
  claim6_single_write cFaceAlways (some imgEx2) _ rfl

/-- Claim C7: (1) an inference call that raises is treated as "no
detection" by `detect_objects_yolo`; (2) when inference raises at the 0°
candidate but detects at 90° (faces nowhere), evaluation continues past
the failing candidate and 90° is selected; (3) when the model constructor
itself raises (faces nowhere), the whole object pass yields no detection
and the run concludes "no decision" with no write, not an error. -/
theorem claim7_object_failures_swallowed :
    (∀ (model : Model) (image : Img) (t : Rat) (e : Err),
        model image = .error e → detect_objects_yolo image model t = false) ∧
    (∀ (c : Collab) (img : Img) (model : Model) (e : Err),
        c.detect_faces img = .ok false →
        c.detect_faces (cv2Rotate .rot90cw img) = .ok false →
        c.detect_faces (cv2Rotate .rot180 img) = .ok false →
        c.detect_faces (cv2Rotate .rot90ccw img) = .ok false →
        c.loadModel = .ok model →
        model img = .error e →
        detect_objects_yolo (cv2Rotate .rot90cw img) model defaultConfidence = true →
        auto_rotate c (some img) =
          .ok ⟨[img, cv2Rotate .rot90cw img, cv2Rotate .rot180 img,
                cv2Rotate .rot90ccw img],
            [img, cv2Rotate .rot90cw img],
            some (90, cv2Rotate .rot90cw img),
            [cvtBGR2RGB (cv2Rotate .rot90cw img)]⟩) ∧
    (∀ (c : Collab) (img : Img) (e : Err),
        c.detect_faces img = .ok false →
        c.detect_faces (cv2Rotate .rot90cw img) = .ok false →
        c.detect_faces (cv2Rotate .rot180 img) = .ok false →
        c.detect_faces (cv2Rotate .rot90ccw img) = .ok false →
        c.loadModel = .error e →
        auto_rotate c (some img) =
          .ok ⟨[img, cv2Rotate .rot90cw img, cv2Rotate .rot180 img,
                cv2Rotate .rot90ccw img],
            [], none, []⟩) := by
  refine ⟨?_, ?_, ?_⟩
  · intro model image t e he
    simp [detect_objects_yolo, he]
  · intro c img model e h0 h1 h2 h3 hlm hme hd90
    have hfp := facePass_all_false c.detect_faces img h0 h1 h2 h3
    have hd0 : detect_objects_yolo img model defaultConfidence = false := by
      simp [detect_objects_yolo, hme]
    simp only [auto_rotate, hfp, hlm]
    simp [objectPass, rotationCandidates, applyRotate, hd0, hd90]
  · intro c img e h0 h1 h2 h3 hlm
    have hfp := facePass_all_false c.detect_faces img h0 h1 h2 h3
    simp [auto_rotate, hfp, hlm]

/-- Witness for C7 at concrete inputs: `modelFlaky` raises exactly on
`imgEx2` and detects elsewhere; `cNoFaceNoModel`'s model load raises. -/
theorem claim7_object_failures_swallowed_witness :
    detect_objects_yolo imgEx2 modelFlaky defaultConfidence = false ∧
    auto_rotate cObjFlaky (some imgEx2) =
      .ok ⟨[imgEx2, cv2Rotate .rot90cw imgEx2, cv2Rotate .rot180 imgEx2,
            cv2Rotate .rot90ccw imgEx2],
        [imgEx2, cv2Rotate .rot90cw imgEx2],
        some (90, cv2Rotate .rot90cw imgEx2),
        [cvtBGR2RGB (cv2Rotate .rot90cw imgEx2)]⟩ ∧
    auto_rotate cNoFaceNoModel (some imgEx2) =
      .ok ⟨[imgEx2, cv2Rotate .rot90cw imgEx2, cv2Rotate .rot180 imgEx2,
            cv2Rotate .rot90ccw imgEx2],
        [], none, []⟩ :=
  ⟨claim7_object_failures_swallowed.1 modelFlaky imgEx2 defaultConfidence
      "inference crashed" (by simp [modelFlaky]),
   claim7_object_failures_swallowed.2.1 cObjFlaky imgEx2 modelFlaky
      "inference crashed" rfl rfl rfl rfl rfl (by simp [modelFlaky])
      (by
        have hne : cv2Rotate .rot90cw imgEx2 ≠ imgEx2 := by decide
        norm_num [detect_objects_yolo, modelFlaky, hne, resultFires,
          examinedConfs, confFires, maxConf, defaultConfidence]),
   claim7_object_failures_swallowed.2.2 cNoFaceNoModel imgEx2
      "load failed" rfl rfl rfl rfl rfl⟩

/-- Claim C8: the object signal reports a detection if and only if some
inference result carries an examined confidence that meets or exceeds
the threshold — the comparison is `≤` on the threshold side (so a
confidence exactly equal to the threshold counts), and an empty
detection set yields no detection (no such confidence exists). -/
theorem claim8_threshold_ge (model : Model) (image : Img) (t : Rat) :
    detect_objects_yolo image model t = true ↔
      ∃ results r conf, model image = .ok results ∧ r ∈ results ∧
        conf ∈ examinedConfs r ∧ t ≤ conf := by
  constructor
  · intro h
    unfold detect_objects_yolo at h
    cases hm : model image with
    | error e => rw [hm] at h; simp at h
    | ok results =>
      rw [hm] at h
      simp only [List.any_eq_true] at h
      obtain ⟨r, hr, hfire⟩ := h
      simp only [resultFires] at hfire
      obtain ⟨conf, hconf, hle⟩ := (confFires_iff _ _).mp hfire
      exact ⟨results, r, conf, rfl, hr, hconf, hle⟩
  · rintro ⟨results, r, conf, hok, hr, hconf, hle⟩
    unfold detect_objects_yolo
    rw [hok]
    simp only [List.any_eq_true]
    exact ⟨r, hr, (confFires_iff _ _).mpr ⟨conf, hconf, hle⟩⟩

/-- Claim C9: axis-aligned and oriented detections are evaluated
identically — a result carrying a confidence list only as oriented boxes
behaves exactly as one carrying the same list as axis-aligned boxes;
when both sets are present for the same result the axis-aligned one is
preferred (the oriented set is ignored); and oriented-only evidence at
or above the threshold counts as a detection. -/
theorem claim9_obb_equivalent (image : Img) (t : Rat) (cs bs os : List Rat) :
    (detect_objects_yolo image (fun _ => .ok [⟨some cs, none⟩]) t =
      detect_objects_yolo image (fun _ => .ok [⟨none, some cs⟩]) t) ∧
    (detect_objects_yolo image (fun _ => .ok [⟨some bs, some os⟩]) t =
      detect_objects_yolo image (fun _ => .ok [⟨some bs, none⟩]) t) ∧
    (∀ conf ∈ cs, t ≤ conf →
      detect_objects_yolo image (fun _ => .ok [⟨none, some cs⟩]) t = true) := by
  refine ⟨rfl, rfl, ?_⟩
  intro conf hconf hle
  simp only [detect_objects_yolo, List.any_cons, List.any_nil, Bool.or_false,
    resultFires, examinedConfs]
  exact (confFires_iff _ _).mpr ⟨conf, hconf, hle⟩

/-- Witness for C9 at concrete inputs (confidence 1 as oriented-only
evidence against threshold 0.5). -/
theorem claim9_obb_equivalent_witness :
    (detect_objects_yolo imgEx2 (fun _ => .ok [⟨some [1], none⟩]) defaultConfidence =
      detect_objects_yolo imgEx2 (fun _ => .ok [⟨none, some [1]⟩]) defaultConfidence) ∧
    (detect_objects_yolo imgEx2 (fun _ => .ok [⟨some [0], some [1]⟩]) defaultConfidence =
      detect_objects_yolo imgEx2 (fun _ => .ok [⟨some [0], none⟩]) defaultConfidence) ∧
    detect_objects_yolo imgEx2 (fun _ => .ok [⟨none, some [1]⟩]) defaultConfidence = true :=
  ⟨(claim9_obb_equivalent imgEx2 defaultConfidence [1] [0] [1]).1,
   (claim9_obb_equivalent imgEx2 defaultConfidence [1] [0] [1]).2.1,
   (claim9_obb_equivalent imgEx2 defaultConfidence [1] [0] [1]).2.2 1 (by simp)
     (by norm_num [defaultConfidence])⟩

/-- Claim C10: each candidate's transform is applied to the original
decoded raster, never to a previously rotated intermediate: when the
decision is `(a, chosen)`, the angle is one of 0°, 90°, 180°, 270°, the
chosen raster is exactly the single rotation `rotateByAngle a` of the
original, and the raster written back is its BGR→RGB conversion, applied
exactly once. -/
theorem claim10_rotation_of_original (c : Collab) (img : Img) (out : RunOut)
    (a : Nat) (chosen : Img)
    (h : auto_rotate c (some img) = .ok out)
    (hdec : out.decision = some (a, chosen)) :
    (a = 0 ∨ a = 90 ∨ a = 180 ∨ a = 270) ∧
    chosen = rotateByAngle a img ∧
    out.writes = [cvtBGR2RGB (rotateByAngle a img)] := by
  simp only [auto_rotate] at h
  cases hfp : facePass c.detect_faces img rotationCandidates with
  | error e => rw [hfp] at h; simp at h
  | ok p =>
    obtain ⟨fc, res⟩ := p
    rw [hfp] at h
    cases res with
    | some ar =>
      obtain ⟨angle, rotated⟩ := ar
      simp only [Except.ok.injEq] at h
      subst h
      simp only [RunOut.decision, Option.some.injEq, Prod.mk.injEq] at hdec
      obtain ⟨rfl, rfl⟩ := hdec
      obtain ⟨code, hmem, hrot⟩ :=
        facePass_decision_mem c.detect_faces img rotationCandidates
          (fc, some (angle, rotated)) angle rotated hfp rfl
      subst hrot
      simp only [rotationCandidates, List.mem_cons, List.not_mem_nil,
        or_false, Prod.mk.injEq] at hmem
      rcases hmem with ⟨rfl, rfl⟩ | ⟨rfl, rfl⟩ | ⟨rfl, rfl⟩ | ⟨rfl, rfl⟩ <;>
        exact ⟨by norm_num, by simp [applyRotate, rotateByAngle],
          by simp [applyRotate, rotateByAngle]⟩
    | none =>
      cases hlm : c.loadModel with
      | error e =>
        rw [hlm] at h
        simp only [Except.ok.injEq] at h
        subst h
        simp at hdec
      | ok model =>
        rw [hlm] at h
        dsimp only at h
        rcases hop : objectPass model img rotationCandidates with ⟨oc, ores⟩
        rw [hop] at h
        cases ores with
        | none =>
          simp only [Except.ok.injEq] at h
          subst h
          simp at hdec
        | some ar =>
          obtain ⟨angle, rotated⟩ := ar
          simp only [Except.ok.injEq] at h
          subst h
          simp only [RunOut.decision, Option.some.injEq, Prod.mk.injEq] at hdec
          obtain ⟨rfl, rfl⟩ := hdec
          obtain ⟨code, hmem, hrot⟩ :=
            objectPass_decision_mem model img rotationCandidates angle rotated
              (by rw [hop])
          subst hrot
          simp only [rotationCandidates, List.mem_cons, List.not_mem_nil,
            or_false, Prod.mk.injEq] at hmem
          rcases hmem with ⟨rfl, rfl⟩ | ⟨rfl, rfl⟩ | ⟨rfl, rfl⟩ | ⟨rfl, rfl⟩ <;>
            exact ⟨by norm_num, by simp [applyRotate, rotateByAngle],
              by simp [applyRotate, rotateByAngle]⟩

/-- Witness for C10 at a concrete input. -/
theorem claim10_rotation_of_original_witness :
    ((0 : Nat) = 0 ∨ (0 : Nat) = 90 ∨ (0 : Nat) = 180 ∨ (0 : Nat) = 270) ∧
    imgEx2 = rotateByAngle 0 imgEx2 ∧
    (⟨[imgEx2], [], some (0, imgEx2), [cvtBGR2RGB imgEx2]⟩ : RunOut).writes =
      [cvtBGR2RGB (rotateByAngle 0 imgEx2)] :=
  claim10_rotation_of_original cFaceAlways imgEx2
    ⟨[imgEx2], [], some (0, imgEx2), [cvtBGR2RGB imgEx2]⟩ 0 imgEx2 rfl rfl

end RotateFixer
